import Mathlib

/-!
Verification of the guardrails engine of the uws-whatsapp-chatbot repository
(`src/services/guardrails.py`), shallowly embedded in Lean 4.

Modelling decisions:
* Python floats are modelled by `ℚ`.  All float values reachable here are
  small dyadic-or-decimal fractions (`k/3`, `k/4`, `k/5`, `k/10`, `min`, `max`)
  compared against the literals `0.3` and `1.0`; the order relations between
  every reachable pair agree between IEEE doubles and the exact rationals, so
  the embedding is order-faithful.
* `re.search(pattern, message, re.IGNORECASE)` is modelled by an executable
  matcher `reSearch` over a small regex AST covering exactly the constructs
  used in the rule catalog: literal characters, alternation, concatenation,
  `.*`, the word-boundary assertion and negative lookahead.  The engine
  lowercases the message before matching (as the Python code does via
  `message.lower()`), and every catalog pattern is lowercase, so the
  IGNORECASE flag adds nothing for the embedded patterns.
* The audit write (`_log_violation`) is a fire-and-forget side effect that
  never alters the returned verdict; it is not part of the embedded state.
-/

namespace UwsGuardrails

/-- Regex AST: exactly the constructs appearing in the catalog patterns.
`dotStar` is `.*`, `wb` is the `\b` word-boundary assertion, `nla r` is the
negative lookahead `(?!r)`. -/
inductive Regex where
  | eps : Regex
  | chr (c : Char) : Regex
  | cat (r1 r2 : Regex) : Regex
  | alt (r1 r2 : Regex) : Regex
  | dotStar : Regex
  | wb : Regex
  | nla (r : Regex) : Regex
deriving DecidableEq, Repr

/-- Python `\w` for the ASCII inputs considered here: `[a-zA-Z0-9_]`. -/
def isWordChar (c : Char) : Bool := c.isAlpha || c.isDigit || c == '_'

/-- Character of `s` at index `i`, if any. -/
def nthChar (s : List Char) (i : Nat) : Option Char := (s.drop i).head?

/-- Is the character at index `i` (if any) a word character? -/
def isWordAt (s : List Char) (i : Nat) : Bool :=
  match nthChar s i with
  | some c => isWordChar c
  | none => false

/-- Python `\b`: a word boundary holds at position `i` iff exactly one of the
neighbouring positions `i-1`, `i` carries a word character (string edges count
as non-word). -/
def atBoundary (s : List Char) (i : Nat) : Bool :=
  (match i with
   | 0 => false
   | j + 1 => isWordAt s j) != isWordAt s i

/-- No newline among positions `i ≤ k < j` of `s` (Python `.` does not match
newline). -/
def noNewlineBetween (s : List Char) (i j : Nat) : Bool :=
  ((s.drop i).take (j - i)).all (fun c => c != '\n')

/-- All end positions of a match of `r` in `s` starting at position `i`.
Backtracking order is irrelevant because only match existence is consumed. -/
def matchEnds (s : List Char) : Regex → Nat → List Nat
  | .eps, i => [i]
  | .chr c, i =>
      match nthChar s i with
      | some c2 => if c2 == c then [i + 1] else []
      | none => []
  | .cat r1 r2, i => ((matchEnds s r1 i).map (matchEnds s r2)).flatten
  | .alt r1 r2, i => matchEnds s r1 i ++ matchEnds s r2 i
  | .dotStar, i =>
      (List.range (s.length + 1)).filter (fun j => decide (i ≤ j) && noNewlineBetween s i j)
  | .wb, i => if atBoundary s i then [i] else []
  | .nla r, i => if (matchEnds s r i).isEmpty then [i] else []

/-- `re.search`: does `r` match starting at some position of `s`? -/
def reSearch (r : Regex) (s : List Char) : Bool :=
  (List.range (s.length + 1)).any (fun i => !(matchEnds s r i).isEmpty)

/-- Literal string as a regex. -/
def strLit (w : String) : Regex :=
  w.data.foldr (fun c r => Regex.cat (.chr c) r) .eps

/-- Alternation `(w1|w2|...)` of literal words. -/
def altOf (ws : List String) : Regex :=
  match ws with
  | [] => .eps
  | w :: rest => rest.foldl (fun acc w2 => Regex.alt acc (strLit w2)) (strLit w)

/-- `\b(w1|w2|...)\b`. -/
def wordGroup (ws : List String) : Regex :=
  .cat .wb (.cat (altOf ws) .wb)

/-- Negative lookahead `(?!.*\b(w1|w2|...)\b)`. -/
def notFollowedByWord (ws : List String) : Regex :=
  .nla (.cat .dotStar (wordGroup ws))

/-- `ViolationType` enum of guardrails.py. -/
inductive ViolationType where
  | off_topic
  | inappropriate_content
  | non_academic
  | personal_info_request
  | external_service
  | harmful_content
deriving DecidableEq, Repr

/-- `Severity` enum of guardrails.py. -/
inductive Severity where
  | low
  | medium
  | high
  | critical
deriving DecidableEq, Repr

/-- `.value` of the `Severity` enum (the string carried by each member). -/
def Severity.value : Severity → String
  | .low => "low"
  | .medium => "medium"
  | .high => "high"
  | .critical => "critical"

/-- `Action` enum of guardrails.py. -/
inductive Action where
  | allow
  | warn
  | redirect
  | block
deriving DecidableEq, Repr

/-- The `GuardrailRule` dataclass.  `patterns` holds the embedded regexes of
the Python pattern strings, in source order. -/
structure GuardrailRule where
  name : String
  violation_type : ViolationType
  severity : Severity
  action : Action
  patterns : List Regex
  description : String
  redirect_message : Option String
deriving DecidableEq

/-- The `GuardrailResult` dataclass. -/
structure GuardrailResult where
  is_allowed : Bool
  violations : List ViolationType
  severity : Severity
  action : Action
  message : String
  confidence : ℚ
  triggered_rules : List String
deriving DecidableEq

/-- Rule `non_academic_topics`.  Pattern strings embedded in source order:
`\b(weather|sports|entertainment|celebrity|gossip|politics|news)\b`,
`\b(shopping|buying|selling|price|cost|money)\b(?!.*\b(tuition|fees|scholarship)\b)`,
`\b(dating|relationship|personal|private|family)\b`,
`\b(job|career|employment)\b(?!.*\b(career services|placement|internship)\b)`,
`\b(travel|vacation|holiday)\b(?!.*\b(study abroad|exchange)\b)`. -/
def nonAcademicRule : GuardrailRule where
  name := "non_academic_topics"
  violation_type := .off_topic
  severity := .medium
  action := .redirect
  patterns :=
    [ wordGroup ["weather", "sports", "entertainment", "celebrity", "gossip", "politics", "news"],
      .cat (wordGroup ["shopping", "buying", "selling", "price", "cost", "money"])
        (notFollowedByWord ["tuition", "fees", "scholarship"]),
      wordGroup ["dating", "relationship", "personal", "private", "family"],
      .cat (wordGroup ["job", "career", "employment"])
        (notFollowedByWord ["career services", "placement", "internship"]),
      .cat (wordGroup ["travel", "vacation", "holiday"])
        (notFollowedByWord ["study abroad", "exchange"]) ]
  description := "Topics not related to UWS academic matters"
  redirect_message := some "I\x27m here to help with UWS academic topics, courses, and university services. How can I assist you with your studies?"

/-- Rule `personal_info_fishing`.  Pattern strings embedded in source order:
`\b(password|pin|social security|bank|credit card|personal details)\b`,
`\b(home address|phone number|email password|login credentials)\b`,
`what.*(password|pin|address|phone)`,
`(give me|tell me|share).*(personal|private|confidential)`. -/
def personalInfoRule : GuardrailRule where
  name := "personal_info_fishing"
  violation_type := .personal_info_request
  severity := .high
  action := .block
  patterns :=
    [ wordGroup ["password", "pin", "social security", "bank", "credit card", "personal details"],
      wordGroup ["home address", "phone number", "email password", "login credentials"],
      .cat (strLit "what") (.cat .dotStar (altOf ["password", "pin", "address", "phone"])),
      .cat (altOf ["give me", "tell me", "share"])
        (.cat .dotStar (altOf ["personal", "private", "confidential"])) ]
  description := "Requests for personal or sensitive information"
  redirect_message := some "I cannot and will not ask for or handle personal sensitive information. For account-related issues, please contact UWS student services directly."

/-- Rule `inappropriate_content`.  Pattern strings embedded in source order:
`\b(hate|harassment|discrimination|offensive|inappropriate)\b`,
`\b(violent|harm|threat|abuse)\b`,
`\b(illegal|drugs|alcohol)\b(?!.*\b(policy|regulation|academic)\b)`. -/
def inappropriateRule : GuardrailRule where
  name := "inappropriate_content"
  violation_type := .inappropriate_content
  severity := .critical
  action := .block
  patterns :=
    [ wordGroup ["hate", "harassment", "discrimination", "offensive", "inappropriate"],
      wordGroup ["violent", "harm", "threat", "abuse"],
      .cat (wordGroup ["illegal", "drugs", "alcohol"])
        (notFollowedByWord ["policy", "regulation", "academic"]) ]
  description := "Inappropriate, harmful, or offensive content"
  redirect_message := some "I cannot assist with inappropriate content. Please keep our conversation focused on UWS academic topics and services."

/-- Rule `external_services`.  Pattern strings embedded in source order:
`\b(google|search|browse|internet|website)\b(?!.*\b(uws|university)\b)`,
`\b(book|order|purchase|buy)\b(?!.*\b(textbook|academic|course)\b)`,
`\b(call|phone|contact)\b(?!.*\b(uws|university|student services)\b)`. -/
def externalServicesRule : GuardrailRule where
  name := "external_services"
  violation_type := .external_service
  severity := .medium
  action := .redirect
  patterns :=
    [ .cat (wordGroup ["google", "search", "browse", "internet", "website"])
        (notFollowedByWord ["uws", "university"]),
      .cat (wordGroup ["book", "order", "purchase", "buy"])
        (notFollowedByWord ["textbook", "academic", "course"]),
      .cat (wordGroup ["call", "phone", "contact"])
        (notFollowedByWord ["uws", "university", "student services"]) ]
  description := "Requests for external services not related to UWS"
  redirect_message := some "I can only help with UWS-related academic information and services. For external services, please use appropriate channels."

/-- Rule `academic_integrity`.  Pattern strings embedded in source order:
`\b(cheat|cheating|plagiarism|copy|steal)\b`,
`(do my|complete my|write my).*(assignment|essay|exam|test|homework)`,
`\b(answers to|solutions for).*(exam|test|quiz|assignment)`,
`\b(hack|bypass|circumvent).*(system|exam|test)`. -/
def academicIntegrityRule : GuardrailRule where
  name := "academic_integrity"
  violation_type := .harmful_content
  severity := .high
  action := .block
  patterns :=
    [ wordGroup ["cheat", "cheating", "plagiarism", "copy", "steal"],
      .cat (altOf ["do my", "complete my", "write my"])
        (.cat .dotStar (altOf ["assignment", "essay", "exam", "test", "homework"])),
      .cat .wb (.cat (altOf ["answers to", "solutions for"])
        (.cat .dotStar (altOf ["exam", "test", "quiz", "assignment"]))),
      .cat .wb (.cat (altOf ["hack", "bypass", "circumvent"])
        (.cat .dotStar (altOf ["system", "exam", "test"]))) ]
  description := "Academic integrity violations"
  redirect_message := some "I cannot help with academic dishonesty. I\x27m here to guide you to appropriate UWS resources for legitimate academic support."

/-- `_initialize_rules`: the catalog, in source order. -/
def guardrailRules : List GuardrailRule :=
  [nonAcademicRule, personalInfoRule, inappropriateRule, externalServicesRule,
   academicIntegrityRule]

/-- `_load_academic_keywords`. -/
def academicKeywords : List String :=
  ["course", "module", "lecture", "tutorial", "seminar", "assignment", "exam", "test", "quiz",
   "study", "research", "library", "academic", "degree", "qualification", "credit", "grade",
   "enrollment", "registration", "timetable", "schedule", "syllabus", "curriculum",
   "professor", "lecturer", "tutor", "supervisor", "advisor", "faculty", "department",
   "campus", "building", "classroom", "laboratory", "lab", "workshop", "placement",
   "internship", "thesis", "dissertation", "project", "coursework", "assessment"]

/-- `_load_uws_keywords`. -/
def uwsKeywords : List String :=
  ["uws", "university of the west of scotland", "paisley", "ayr", "dumfries", "london",
   "student services", "registry", "admissions", "student union", "accommodation",
   "blackboard", "moodle", "student portal", "library services", "it services",
   "careers service", "counselling", "disability services", "international office",
   "finance office", "graduation", "student card", "student discount", "parking"]

/-- Does `pat` occur at the head of `s`? -/
def leadsWith : List Char → List Char → Bool
  | [], _ => true
  | _ :: _, [] => false
  | a :: as, b :: bs => a == b && leadsWith as bs

/-- Python `kw in msg`: substring containment. -/
def hasSub (msg : List Char) (kw : List Char) : Bool :=
  (List.range (msg.length + 1)).any (fun i => leadsWith kw (msg.drop i))

/-- Python `min` on two rationals (kernel-reducible, unlike the
order-instance min). -/
def ratMin (a b : ℚ) : ℚ := if a ≤ b then a else b

/-- Python `max` on two rationals (kernel-reducible, unlike the
order-instance max). -/
def ratMax (a b : ℚ) : ℚ := if a ≤ b then b else a

/-- `_calculate_academic_relevance`: weighted keyword count, normalised by 10
and capped at 1. -/
def academicRelevance (msg : List Char) : ℚ :=
  let academic_matches := (academicKeywords.filter (fun k => hasSub msg k.data)).length
  let uws_matches := (uwsKeywords.filter (fun k => hasSub msg k.data)).length
  let total_matches := academic_matches + uws_matches * 2
  ratMin (mkRat (total_matches : Int) 10) 1

/-- The pattern-match count of the loop in `_check_rule`. -/
def countPatternMatches (msg : List Char) (ps : List Regex) : Nat :=
  ps.countP (fun p => reSearch p msg)

/-- `_check_rule`: returns `(is_violated, confidence)`. -/
def checkRule (msg : List Char) (rule : GuardrailRule) : Bool × ℚ :=
  let violation_count := countPatternMatches msg rule.patterns
  let total_patterns := rule.patterns.length
  let confidence : ℚ :=
    if 0 < total_patterns then mkRat (violation_count : Int) total_patterns else 0
  (decide (confidence > mkRat 3 10) || decide (violation_count ≥ 1), confidence)

/-- The mutable locals of `evaluate` that the rule loop updates. -/
structure EvalState where
  violations : List ViolationType
  triggered_rules : List String
  max_severity : Severity
  final_action : Action
  confidence_scores : List ℚ
deriving DecidableEq

/-- One iteration of the rule loop of `evaluate`. -/
def stepRule (ml : List Char) (s : EvalState) (rule : GuardrailRule) : EvalState :=
  if (checkRule ml rule).1 then
    let s2 : EvalState :=
      { s with
        violations := s.violations ++ [rule.violation_type],
        triggered_rules := s.triggered_rules ++ [rule.name],
        confidence_scores := s.confidence_scores ++ [(checkRule ml rule).2] }
    if (["critical", "high"] : List String).contains rule.severity.value
        && (["low", "medium"] : List String).contains s.max_severity.value then
      { s2 with max_severity := rule.severity, final_action := rule.action }
    else if rule.severity = Severity.medium ∧ s.max_severity = Severity.low then
      { s2 with max_severity := rule.severity, final_action := rule.action }
    else s2
  else s

/-- The rule loop of `evaluate`. -/
def runRules (ml : List Char) (s : EvalState) (rs : List GuardrailRule) : EvalState :=
  rs.foldl (stepRule ml) s

/-- Lowercased message as a character list (`message.lower()`; ASCII-faithful
character-wise lowering, matching `String.toLower`). -/
def msgLower (message : String) : List Char := message.data.map Char.toLower

/-- State of `evaluate` just before the rule loop: the off-topic pre-seed when
the academic relevance score is below 0.3, otherwise the neutral state. -/
def initState (ml : List Char) : EvalState :=
  if academicRelevance ml < mkRat 3 10 then
    { violations := [.off_topic], triggered_rules := ["low_academic_relevance"],
      max_severity := .medium, final_action := .redirect, confidence_scores := [] }
  else
    { violations := [], triggered_rules := [], max_severity := .low,
      final_action := .allow, confidence_scores := [] }

/-- Loop state after processing the rules `rs` (a prefix of the catalog) for
`message`. -/
def traceState (message : String) (rs : List GuardrailRule) : EvalState :=
  runRules (msgLower message) (initState (msgLower message)) rs

/-- `max(confidence_scores) if confidence_scores else academic_score`. -/
def overallConfidence (scores : List ℚ) (academic_score : ℚ) : ℚ :=
  match scores with
  | [] => academic_score
  | c :: cs => cs.foldl ratMax c

/-- `_generate_response_message`. -/
def generateResponseMessage (violations : List ViolationType)
    (triggered_rules : List String) : String :=
  if violations = [] then ""
  else if ViolationType.inappropriate_content ∈ violations then
    "I cannot assist with inappropriate content. Please keep our conversation focused on UWS academic topics and services."
  else if ViolationType.personal_info_request ∈ violations then
    "I cannot and will not ask for or handle personal sensitive information. For account-related issues, please contact UWS student services directly."
  else if ViolationType.harmful_content ∈ violations then
    "I cannot help with academic dishonesty. I\x27m here to guide you to appropriate UWS resources for legitimate academic support."
  else if ViolationType.off_topic ∈ violations ∨ ViolationType.non_academic ∈ violations then
    "I\x27m here to help with UWS academic topics, courses, and university services. How can I assist you with your studies?"
  else if ViolationType.external_service ∈ violations then
    "I can only help with UWS-related academic information and services. For external services, please use appropriate channels."
  else
    "I\x27m designed to help with UWS academic matters. Please ask about courses, university services, or academic support."

/-- `GuardrailsEngine.evaluate`.  The audit write is a side effect that never
changes the returned result and is omitted; `user_whatsapp_id` is kept for
signature fidelity but (like in the source) does not influence the verdict. -/
def evaluate (message : String) (user_whatsapp_id : String) : GuardrailResult :=
  let ml := msgLower message
  let s := runRules ml (initState ml) guardrailRules
  { is_allowed := decide (s.final_action ≠ Action.block)
    violations := s.violations
    severity := s.max_severity
    action := s.final_action
    message := generateResponseMessage s.violations s.triggered_rules
    confidence := overallConfidence s.confidence_scores (academicRelevance ml)
    triggered_rules := s.triggered_rules }

/-! ### Helper lemmas about the escalation loop -/

/-- Ordinal rank of a severity: low < medium < high < critical. -/
def Severity.rank : Severity → Nat
  | .low => 0
  | .medium => 1
  | .high => 2
  | .critical => 3

/-- Ordinal rank of an action: allow < warn < redirect < block. -/
def Action.rank : Action → Nat
  | .allow => 0
  | .warn => 1
  | .redirect => 2
  | .block => 3

/-- The action the loop associates to each reachable severity. -/
def canonAct : Severity → Action
  | .low => .allow
  | .medium => .redirect
  | .high => .block
  | .critical => .block

lemma mkRat_cast_div (n : ℤ) (d : ℕ) : (mkRat n d : ℚ) = (n : ℚ) / (d : ℚ) := by
  rw [Rat.mkRat_eq_divInt, Rat.divInt_eq_div]
  push_cast
  rfl

lemma mkRat_three_tenths : (mkRat 3 10 : ℚ) = 3 / 10 := by
  have h := mkRat_cast_div 3 10
  simpa using h

lemma ratMin_eq_min (a b : ℚ) : ratMin a b = min a b := by
  rw [ratMin, min_def]

lemma ratMax_eq_max (a b : ℚ) : ratMax a b = max a b := by
  rw [ratMax, max_def]

lemma initState_def (ml : List Char) :
    initState ml
      = (if academicRelevance ml < 3 / 10 then
          { violations := [ViolationType.off_topic],
            triggered_rules := ["low_academic_relevance"],
            max_severity := .medium, final_action := .redirect,
            confidence_scores := [] }
        else
          { violations := [], triggered_rules := [], max_severity := .low,
            final_action := .allow, confidence_scores := [] }) := by
  unfold initState
  rw [mkRat_three_tenths]

lemma contains_hc (sev : Severity) :
    ((["critical", "high"] : List String).contains sev.value)
      = decide (sev = Severity.critical ∨ sev = Severity.high) := by
  cases sev <;> rfl

lemma contains_lm (sev : Severity) :
    ((["low", "medium"] : List String).contains sev.value)
      = decide (sev = Severity.low ∨ sev = Severity.medium) := by
  cases sev <;> rfl

lemma stepRule_not_trig {ml : List Char} {rule : GuardrailRule} (s : EvalState)
    (h : (checkRule ml rule).1 = false) : stepRule ml s rule = s := by
  simp [stepRule, h]

lemma stepRule_sev_act (ml : List Char) (s : EvalState) (rule : GuardrailRule) :
    (stepRule ml s rule).max_severity
      = (if (checkRule ml rule).1 = true then
          (if (rule.severity = Severity.critical ∨ rule.severity = Severity.high)
              ∧ (s.max_severity = Severity.low ∨ s.max_severity = Severity.medium) then
            rule.severity
          else if rule.severity = Severity.medium ∧ s.max_severity = Severity.low then
            rule.severity
          else s.max_severity)
        else s.max_severity)
    ∧ (stepRule ml s rule).final_action
      = (if (checkRule ml rule).1 = true then
          (if (rule.severity = Severity.critical ∨ rule.severity = Severity.high)
              ∧ (s.max_severity = Severity.low ∨ s.max_severity = Severity.medium) then
            rule.action
          else if rule.severity = Severity.medium ∧ s.max_severity = Severity.low then
            rule.action
          else s.final_action)
        else s.final_action) := by
  unfold stepRule
  cases h : (checkRule ml rule).1
  · simp [h]
  · simp only [h, if_true, contains_hc, contains_lm, Bool.and_eq_true, decide_eq_true_eq]
    constructor <;> split_ifs <;> rfl

lemma stepRule_fields (ml : List Char) (s : EvalState) (rule : GuardrailRule) :
    (stepRule ml s rule).violations
      = s.violations ++ (if (checkRule ml rule).1 then [rule.violation_type] else [])
    ∧ (stepRule ml s rule).triggered_rules
      = s.triggered_rules ++ (if (checkRule ml rule).1 then [rule.name] else [])
    ∧ (stepRule ml s rule).confidence_scores
      = s.confidence_scores ++ (if (checkRule ml rule).1 then [(checkRule ml rule).2] else []) := by
  unfold stepRule
  cases h : (checkRule ml rule).1
  · simp [h]
  · simp only [h, if_true]
    split_ifs <;> simp

lemma stepRule_sev_mono (ml : List Char) (s : EvalState) (rule : GuardrailRule) :
    Severity.rank s.max_severity ≤ Severity.rank (stepRule ml s rule).max_severity := by
  obtain ⟨hs, _⟩ := stepRule_sev_act ml s rule
  rw [hs]
  split_ifs with h1 h2 h3
  · rcases h2 with ⟨h2a | h2a, h2b | h2b⟩ <;> rw [h2a, h2b] <;> decide
  · rcases h3 with ⟨h3a, h3b⟩
    rw [h3a, h3b]; decide
  · exact le_refl _
  · exact le_refl _

lemma runRules_sev_mono (ml : List Char) :
    ∀ (rs : List GuardrailRule) (s : EvalState),
      Severity.rank s.max_severity ≤ Severity.rank (runRules ml s rs).max_severity
  | [], s => le_refl _
  | r :: rs, s =>
      le_trans (stepRule_sev_mono ml s r) (runRules_sev_mono ml rs (stepRule ml s r))

lemma stepRule_frozen {s : EvalState} (ml : List Char) (rule : GuardrailRule)
    (h : s.max_severity = Severity.high ∨ s.max_severity = Severity.critical) :
    (stepRule ml s rule).max_severity = s.max_severity
    ∧ (stepRule ml s rule).final_action = s.final_action := by
  obtain ⟨hs, ha⟩ := stepRule_sev_act ml s rule
  rw [hs, ha]
  have hnotlm : ¬(s.max_severity = Severity.low ∨ s.max_severity = Severity.medium) := by
    rcases h with h | h <;> rw [h] <;> decide
  have hnotlow : ¬(s.max_severity = Severity.low) := by
    rcases h with h | h <;> rw [h] <;> decide
  constructor <;> split_ifs with h1 h2 h3 <;> first
    | rfl
    | exact absurd h2.2 hnotlm
    | exact absurd h3.2 hnotlow

lemma runRules_frozen {s : EvalState} (ml : List Char) (rs : List GuardrailRule)
    (h : s.max_severity = Severity.high ∨ s.max_severity = Severity.critical) :
    (runRules ml s rs).max_severity = s.max_severity
    ∧ (runRules ml s rs).final_action = s.final_action := by
  induction rs generalizing s with
  | nil => exact ⟨rfl, rfl⟩
  | cons r rs ih =>
      obtain ⟨h1, h2⟩ := stepRule_frozen ml r h
      have h3 : (stepRule ml s r).max_severity = Severity.high
          ∨ (stepRule ml s r).max_severity = Severity.critical := by
        rw [h1]; exact h
      obtain ⟨h4, h5⟩ := ih h3
      exact ⟨by rw [show runRules ml s (r :: rs) = runRules ml (stepRule ml s r) rs from rfl,
                    h4, h1],
             by rw [show runRules ml s (r :: rs) = runRules ml (stepRule ml s r) rs from rfl,
                    h5, h2]⟩

lemma stepRule_lowmed {s : EvalState} (ml : List Char) (rule : GuardrailRule)
    (h : s.max_severity = Severity.low ∨ s.max_severity = Severity.medium)
    (hr : ¬((checkRule ml rule).1 = true
            ∧ (rule.severity = Severity.high ∨ rule.severity = Severity.critical))) :
    (stepRule ml s rule).max_severity = Severity.low
    ∨ (stepRule ml s rule).max_severity = Severity.medium := by
  obtain ⟨hs, _⟩ := stepRule_sev_act ml s rule
  rw [hs]
  split_ifs with h1 h2 h3
  · exact absurd ⟨h1, h2.1.symm⟩ hr
  · rw [h3.1]; exact Or.inr rfl
  · exact h
  · exact h

lemma runRules_lowmed {s : EvalState} (ml : List Char) (rs : List GuardrailRule)
    (h : s.max_severity = Severity.low ∨ s.max_severity = Severity.medium)
    (hr : ∀ r ∈ rs, ¬((checkRule ml r).1 = true
            ∧ (r.severity = Severity.high ∨ r.severity = Severity.critical))) :
    (runRules ml s rs).max_severity = Severity.low
    ∨ (runRules ml s rs).max_severity = Severity.medium := by
  induction rs generalizing s with
  | nil => exact h
  | cons r rs ih =>
      exact ih (stepRule_lowmed ml r h (hr r (List.mem_cons_self r rs)))
        (fun r2 h2 => hr r2 (List.mem_cons_of_mem r h2))

lemma stepRule_adopt {s : EvalState} (ml : List Char) (rule : GuardrailRule)
    (h : s.max_severity = Severity.low ∨ s.max_severity = Severity.medium)
    (ht : (checkRule ml rule).1 = true)
    (hr : rule.severity = Severity.high ∨ rule.severity = Severity.critical) :
    (stepRule ml s rule).max_severity = rule.severity
    ∧ (stepRule ml s rule).final_action = rule.action := by
  obtain ⟨hs, ha⟩ := stepRule_sev_act ml s rule
  rw [hs, ha]
  have hcond : (rule.severity = Severity.critical ∨ rule.severity = Severity.high)
      ∧ (s.max_severity = Severity.low ∨ s.max_severity = Severity.medium) :=
    ⟨hr.symm, h⟩
  rw [if_pos ht, if_pos ht, if_pos hcond, if_pos hcond]
  exact ⟨rfl, rfl⟩

lemma stepRule_adopt_medium {s : EvalState} (ml : List Char) (rule : GuardrailRule)
    (hlow : s.max_severity = Severity.low)
    (ht : (checkRule ml rule).1 = true)
    (hmed : rule.severity = Severity.medium) :
    (stepRule ml s rule).max_severity = Severity.medium
    ∧ (stepRule ml s rule).final_action = rule.action := by
  obtain ⟨hs, ha⟩ := stepRule_sev_act ml s rule
  have hnothc : ¬((rule.severity = Severity.critical ∨ rule.severity = Severity.high)
      ∧ (s.max_severity = Severity.low ∨ s.max_severity = Severity.medium)) := by
    rintro ⟨hc | hc, _⟩ <;> rw [hmed] at hc <;> exact absurd hc (by decide)
  rw [hs, ha, if_pos ht, if_pos ht, if_neg hnothc, if_neg hnothc,
      if_pos ⟨hmed, hlow⟩, if_pos ⟨hmed, hlow⟩]
  exact ⟨hmed, rfl⟩

/-- Every catalog rule couples its severity with the action the loop expects:
high/critical rules block, medium rules redirect. -/
lemma rules_canon : ∀ r ∈ guardrailRules,
    ((r.severity = Severity.critical ∨ r.severity = Severity.high) → r.action = Action.block)
    ∧ (r.severity = Severity.medium → r.action = Action.redirect) := by
  decide

lemma canonAct_rank_mono {a b : Severity} (h : Severity.rank a ≤ Severity.rank b) :
    Action.rank (canonAct a) ≤ Action.rank (canonAct b) := by
  cases a <;> cases b <;> revert h <;> decide

lemma stepRule_inv {s : EvalState} {rule : GuardrailRule} (ml : List Char)
    (hmem : rule ∈ guardrailRules)
    (h : s.final_action = canonAct s.max_severity) :
    (stepRule ml s rule).final_action = canonAct (stepRule ml s rule).max_severity := by
  obtain ⟨hs, ha⟩ := stepRule_sev_act ml s rule
  obtain ⟨hcan1, hcan2⟩ := rules_canon rule hmem
  rw [hs, ha]
  split_ifs with h1 h2 h3
  · rw [hcan1 h2.1]
    rcases h2.1 with hc | hc <;> rw [hc] <;> rfl
  · rw [hcan2 h3.1, h3.1]; rfl
  · exact h
  · exact h

lemma runRules_inv {s : EvalState} (ml : List Char) (rs : List GuardrailRule)
    (hmem : ∀ r ∈ rs, r ∈ guardrailRules)
    (h : s.final_action = canonAct s.max_severity) :
    (runRules ml s rs).final_action = canonAct (runRules ml s rs).max_severity := by
  induction rs generalizing s with
  | nil => exact h
  | cons r rs ih =>
      exact ih (fun r2 h2 => hmem r2 (List.mem_cons_of_mem r h2))
        (stepRule_inv ml (hmem r (List.mem_cons_self r rs)) h)

lemma initState_inv (ml : List Char) :
    (initState ml).final_action = canonAct (initState ml).max_severity := by
  unfold initState
  split_ifs <;> rfl

lemma runRules_cons (ml : List Char) (s : EvalState) (r : GuardrailRule)
    (rs : List GuardrailRule) :
    runRules ml s (r :: rs) = runRules ml (stepRule ml s r) rs := rfl

lemma runRules_append (ml : List Char) (s : EvalState) (rs1 rs2 : List GuardrailRule) :
    runRules ml s (rs1 ++ rs2) = runRules ml (runRules ml s rs1) rs2 :=
  List.foldl_append _ _ _ _

lemma runRules_violations (ml : List Char) :
    ∀ (rs : List GuardrailRule) (s : EvalState),
      (runRules ml s rs).violations
        = s.violations
          ++ (rs.filter (fun r => (checkRule ml r).1)).map (fun r => r.violation_type)
  | [], s => by simp [runRules]
  | r :: rs, s => by
      rw [runRules_cons, runRules_violations ml rs (stepRule ml s r)]
      obtain ⟨hv, _, _⟩ := stepRule_fields ml s r
      cases h : (checkRule ml r).1 <;>
        simp [hv, h, List.filter_cons]

lemma runRules_triggered (ml : List Char) :
    ∀ (rs : List GuardrailRule) (s : EvalState),
      (runRules ml s rs).triggered_rules
        = s.triggered_rules
          ++ (rs.filter (fun r => (checkRule ml r).1)).map (fun r => r.name)
  | [], s => by simp [runRules]
  | r :: rs, s => by
      rw [runRules_cons, runRules_triggered ml rs (stepRule ml s r)]
      obtain ⟨_, ht, _⟩ := stepRule_fields ml s r
      cases h : (checkRule ml r).1 <;>
        simp [ht, h, List.filter_cons]

lemma runRules_scores (ml : List Char) :
    ∀ (rs : List GuardrailRule) (s : EvalState),
      (runRules ml s rs).confidence_scores
        = s.confidence_scores
          ++ (rs.filter (fun r => (checkRule ml r).1)).map (fun r => (checkRule ml r).2)
  | [], s => by simp [runRules]
  | r :: rs, s => by
      rw [runRules_cons, runRules_scores ml rs (stepRule ml s r)]
      obtain ⟨_, _, hc⟩ := stepRule_fields ml s r
      cases h : (checkRule ml r).1 <;>
        simp [hc, h, List.filter_cons]

lemma runRules_id_of_none {ml : List Char} {rs : List GuardrailRule} (s : EvalState)
    (h : ∀ r ∈ rs, (checkRule ml r).1 = false) :
    runRules ml s rs = s := by
  induction rs generalizing s with
  | nil => rfl
  | cons r rs ih =>
      rw [runRules_cons, stepRule_not_trig s (h r (List.mem_cons_self r rs))]
      exact ih s (fun r2 h2 => h r2 (List.mem_cons_of_mem r h2))

/-! ### Bounds lemmas -/

lemma checkRule_conf_bounds (ml : List Char) (rule : GuardrailRule) :
    0 ≤ (checkRule ml rule).2 ∧ (checkRule ml rule).2 ≤ 1 := by
  unfold checkRule
  simp only []
  split_ifs with h
  · rw [mkRat_cast_div]
    push_cast
    constructor
    · exact div_nonneg (Nat.cast_nonneg _) (Nat.cast_nonneg _)
    · rw [div_le_one (by exact_mod_cast h)]
      exact_mod_cast List.countP_le_length (l := rule.patterns) (p := fun p => reSearch p ml)
  · norm_num

lemma academicRelevance_bounds (ml : List Char) :
    0 ≤ academicRelevance ml ∧ academicRelevance ml ≤ 1 := by
  unfold academicRelevance
  rw [ratMin_eq_min, mkRat_cast_div]
  push_cast
  constructor
  · exact le_min (by positivity) (by norm_num)
  · exact min_le_right _ _

lemma foldl_max_bounds :
    ∀ (cs : List ℚ) (c : ℚ), 0 ≤ c → c ≤ 1 → (∀ x ∈ cs, 0 ≤ x ∧ x ≤ 1) →
      0 ≤ cs.foldl ratMax c ∧ cs.foldl ratMax c ≤ 1
  | [], c, h0, h1, _ => ⟨h0, h1⟩
  | x :: cs, c, h0, h1, hmem => by
      rw [List.foldl_cons, ratMax_eq_max]
      exact foldl_max_bounds cs (max c x) (le_trans h0 (le_max_left _ _))
        (max_le h1 (hmem x (List.mem_cons_self x cs)).2)
        (fun y hy => hmem y (List.mem_cons_of_mem x hy))

lemma overallConfidence_bounds {scores : List ℚ} {a : ℚ}
    (hs : ∀ x ∈ scores, 0 ≤ x ∧ x ≤ 1) (ha : 0 ≤ a ∧ a ≤ 1) :
    0 ≤ overallConfidence scores a ∧ overallConfidence scores a ≤ 1 := by
  cases scores with
  | nil => exact ha
  | cons c cs =>
      exact foldl_max_bounds cs c (hs c (List.mem_cons_self c cs)).1
        (hs c (List.mem_cons_self c cs)).2
        (fun y hy => hs y (List.mem_cons_of_mem c hy))

/-! ### Projections of `evaluate` in terms of the loop state -/

lemma evaluate_eq (message uid : String) :
    evaluate message uid =
      { is_allowed := decide ((traceState message guardrailRules).final_action ≠ Action.block)
        violations := (traceState message guardrailRules).violations
        severity := (traceState message guardrailRules).max_severity
        action := (traceState message guardrailRules).final_action
        message := generateResponseMessage (traceState message guardrailRules).violations
          (traceState message guardrailRules).triggered_rules
        confidence := overallConfidence (traceState message guardrailRules).confidence_scores
          (academicRelevance (msgLower message))
        triggered_rules := (traceState message guardrailRules).triggered_rules } := rfl

lemma initState_violations (ml : List Char) :
    (initState ml).violations
      = (if academicRelevance ml < 3 / 10 then [ViolationType.off_topic] else []) := by
  rw [initState_def]
  split_ifs <;> rfl

lemma initState_scores (ml : List Char) :
    (initState ml).confidence_scores = [] := by
  unfold initState
  split_ifs <;> rfl

lemma initState_lowmed (ml : List Char) :
    (initState ml).max_severity = Severity.low
    ∨ (initState ml).max_severity = Severity.medium := by
  unfold initState
  split_ifs
  · exact Or.inr rfl
  · exact Or.inl rfl

/-! ### Claim theorems -/

/-- Claim C1: for every message and user id, the verdict returned by `evaluate`
satisfies `is_allowed = (resolved action ≠ block)`: `is_allowed` is true exactly
when the resolved action is not block. -/
theorem claim_c1_is_allowed_iff_not_block (message uid : String) :
    (evaluate message uid).is_allowed = true
      ↔ (evaluate message uid).action ≠ Action.block := by
  rw [evaluate_eq]
  simp

/-- Claim C5: for every message and rule, `_check_rule` returns
`confidence = (#patterns matching) / P` (0 when `P = 0`, where `P` is the
number of patterns) and `triggered = (confidence > 0.3) OR (#matching ≥ 1)`;
each pattern is matched by `reSearch`, the embedding of the unanchored
case-insensitive `re.search` over the whole (lowercased) message. -/
theorem claim_c5_check_rule_confidence (m : List Char) (rule : GuardrailRule) :
    (checkRule m rule).2
      = (if rule.patterns.length = 0 then 0
         else (countPatternMatches m rule.patterns : ℚ) / (rule.patterns.length : ℚ))
    ∧ ((checkRule m rule).1 = true
        ↔ ((checkRule m rule).2 > 3 / 10 ∨ 1 ≤ countPatternMatches m rule.patterns)) := by
  constructor
  · unfold checkRule
    simp only []
    rcases Nat.eq_zero_or_pos rule.patterns.length with h | h
    · simp [h]
    · rw [if_pos h, if_neg (Nat.pos_iff_ne_zero.mp h), mkRat_cast_div]
      push_cast
      rfl
  · unfold checkRule
    simp only [Bool.or_eq_true, decide_eq_true_eq]
    rw [mkRat_three_tenths]

/-- Claim C10: for every message and every rule with a non-empty pattern list,
the trigger decision of `_check_rule` holds iff at least one pattern matches:
since `confidence > 0.3` already forces a match, the ratio-threshold clause
never decides the outcome. -/
theorem claim_c10_triggered_iff_one_match (m : List Char) (rule : GuardrailRule)
    (h : rule.patterns ≠ []) :
    (checkRule m rule).1 = true ↔ 1 ≤ countPatternMatches m rule.patterns := by
  unfold checkRule
  simp only [Bool.or_eq_true, decide_eq_true_eq, ge_iff_le]
  constructor
  · rintro (hc | hc)
    · by_contra hn
      have h0 : countPatternMatches m rule.patterns = 0 := by omega
      rw [h0] at hc
      split_ifs at hc with hl
      · rw [show (mkRat ((0 : ℕ) : ℤ) rule.patterns.length : ℚ) = 0 from by
            simp [mkRat_cast_div]] at hc
        rw [mkRat_three_tenths] at hc
        norm_num at hc
      · rw [mkRat_three_tenths] at hc
        norm_num at hc
    · exact hc
  · intro hc
    exact Or.inr hc

/-- Witness for C10 at a concrete rule and message. -/
theorem claim_c10_triggered_iff_one_match_witness :
    personalInfoRule.patterns ≠ []
    ∧ ((checkRule (msgLower "What is my password for the student portal?")
          personalInfoRule).1 = true
        ↔ 1 ≤ countPatternMatches (msgLower "What is my password for the student portal?")
            personalInfoRule.patterns) :=
  ⟨by decide,
   claim_c10_triggered_iff_one_match _ personalInfoRule (by decide)⟩

/-- Claim C8: every per-rule confidence, the relevance score, and the overall
confidence of the returned verdict lie in the closed interval [0, 1]. -/
theorem claim_c8_confidence_bounds (message uid : String) (m : List Char)
    (rule : GuardrailRule) :
    (0 ≤ (checkRule m rule).2 ∧ (checkRule m rule).2 ≤ 1)
    ∧ (0 ≤ academicRelevance m ∧ academicRelevance m ≤ 1)
    ∧ (0 ≤ (evaluate message uid).confidence ∧ (evaluate message uid).confidence ≤ 1) := by
  refine ⟨checkRule_conf_bounds m rule, academicRelevance_bounds m, ?_⟩
  rw [evaluate_eq]
  simp only []
  apply overallConfidence_bounds
  · intro x hx
    rw [traceState, runRules_scores, initState_scores, List.nil_append,
        List.mem_map] at hx
    obtain ⟨r, _, hr⟩ := hx
    rw [← hr]
    exact checkRule_conf_bounds _ _
  · exact academicRelevance_bounds _

/-- Claim C9: for every message and user id, if the verdict carries no
violations, the resolved action is allow and the response message is empty. -/
theorem claim_c9_empty_violations_allow (message uid : String)
    (h : (evaluate message uid).violations = []) :
    (evaluate message uid).action = Action.allow
    ∧ (evaluate message uid).message = "" := by
  have h2 := h
  rw [evaluate_eq] at h2
  simp only [] at h2
  rw [traceState, runRules_violations, initState_violations] at h2
  rcases List.append_eq_nil.mp h2 with ⟨ha, hb⟩
  have hcond : ¬ academicRelevance (msgLower message) < 3 / 10 := by
    intro hc
    rw [if_pos hc] at ha
    exact List.cons_ne_nil _ _ ha
  have hinit : initState (msgLower message)
      = { violations := [], triggered_rules := [], max_severity := .low,
          final_action := .allow, confidence_scores := [] } := by
    rw [initState_def, if_neg hcond]
  have hnone : ∀ r ∈ guardrailRules, (checkRule (msgLower message) r).1 = false := by
    intro r hr
    have h3 := List.filter_eq_nil.mp (List.map_eq_nil.mp hb) r hr
    simpa using h3
  have htrace : traceState message guardrailRules = initState (msgLower message) := by
    rw [traceState]
    exact runRules_id_of_none _ hnone
  rw [evaluate_eq]
  simp only []
  rw [htrace, hinit]
  exact ⟨rfl, rfl⟩

/-- Witness for C9: a high-relevance message triggering no rule. -/
theorem claim_c9_empty_violations_allow_witness :
    (evaluate "exam paisley" "uid-1").violations = []
    ∧ ((evaluate "exam paisley" "uid-1").action = Action.allow
       ∧ (evaluate "exam paisley" "uid-1").message = "") :=
  ⟨by decide, claim_c9_empty_violations_allow "exam paisley" "uid-1" (by decide)⟩

/-- Claim C7: `_generate_response_message` selects the reply by a fixed
priority over violation types, independent of catalog order and of the
(unused) triggered-rule list: inappropriate-content, then
personal-info-request, then harmful-content, then off-topic or non-academic,
then external-service, then a generic fallback; an empty violation list yields
the empty string. -/
theorem claim_c7_message_priority (vs : List ViolationType) (tr : List String) :
    (vs = [] → generateResponseMessage vs tr = "")
    ∧ (ViolationType.inappropriate_content ∈ vs →
        generateResponseMessage vs tr
          = "I cannot assist with inappropriate content. Please keep our conversation focused on UWS academic topics and services.")
    ∧ (ViolationType.inappropriate_content ∉ vs →
        ViolationType.personal_info_request ∈ vs →
        generateResponseMessage vs tr
          = "I cannot and will not ask for or handle personal sensitive information. For account-related issues, please contact UWS student services directly.")
    ∧ (ViolationType.inappropriate_content ∉ vs →
        ViolationType.personal_info_request ∉ vs →
        ViolationType.harmful_content ∈ vs →
        generateResponseMessage vs tr
          = "I cannot help with academic dishonesty. I\x27m here to guide you to appropriate UWS resources for legitimate academic support.")
    ∧ (ViolationType.inappropriate_content ∉ vs →
        ViolationType.personal_info_request ∉ vs →
        ViolationType.harmful_content ∉ vs →
        (ViolationType.off_topic ∈ vs ∨ ViolationType.non_academic ∈ vs) →
        generateResponseMessage vs tr
          = "I\x27m here to help with UWS academic topics, courses, and university services. How can I assist you with your studies?")
    ∧ (ViolationType.inappropriate_content ∉ vs →
        ViolationType.personal_info_request ∉ vs →
        ViolationType.harmful_content ∉ vs →
        ViolationType.off_topic ∉ vs → ViolationType.non_academic ∉ vs →
        ViolationType.external_service ∈ vs →
        generateResponseMessage vs tr
          = "I can only help with UWS-related academic information and services. For external services, please use appropriate channels.")
    ∧ (vs ≠ [] →
        ViolationType.inappropriate_content ∉ vs →
        ViolationType.personal_info_request ∉ vs →
        ViolationType.harmful_content ∉ vs →
        ViolationType.off_topic ∉ vs → ViolationType.non_academic ∉ vs →
        ViolationType.external_service ∉ vs →
        generateResponseMessage vs tr
          = "I\x27m designed to help with UWS academic matters. Please ask about courses, university services, or academic support.") := by
  refine ⟨?_, ?_, ?_, ?_, ?_, ?_, ?_⟩
  · intro h
    rw [h]
    rfl
  · intro h1
    have hne := List.ne_nil_of_mem h1
    simp [generateResponseMessage, h1, hne]
  · intro h1 h2
    have hne := List.ne_nil_of_mem h2
    simp [generateResponseMessage, h1, h2, hne]
  · intro h1 h2 h3
    have hne := List.ne_nil_of_mem h3
    simp [generateResponseMessage, h1, h2, h3, hne]
  · intro h1 h2 h3 h4
    have hne : vs ≠ [] := by
      rcases h4 with h4 | h4 <;> exact List.ne_nil_of_mem h4
    simp [generateResponseMessage, h1, h2, h3, h4, hne]
  · intro h1 h2 h3 h4 h5 h6
    have hne := List.ne_nil_of_mem h6
    simp [generateResponseMessage, h1, h2, h3, h4, h5, h6, hne]
  · intro hne h1 h2 h3 h4 h5 h6
    simp [generateResponseMessage, h1, h2, h3, h4, h5, h6, hne]

/-- Witness for C7 at a concrete violation list. -/
theorem claim_c7_message_priority_witness :
    (ViolationType.inappropriate_content ∉ [ViolationType.personal_info_request])
    ∧ (ViolationType.personal_info_request ∈ [ViolationType.personal_info_request])
    ∧ generateResponseMessage [ViolationType.personal_info_request] []
        = "I cannot and will not ask for or handle personal sensitive information. For account-related issues, please contact UWS student services directly." :=
  ⟨by decide, by decide,
   (claim_c7_message_priority [ViolationType.personal_info_request] []).2.2.1
     (by decide) (by decide)⟩

/-- Claim C4 counterexample: the message "weather" pre-seeds the off-topic
violation (relevance 0) and also fires the `non_academic_topics` rule (also
off-topic), so the returned violations list holds a duplicate entry. -/
theorem claim_c4_counterexample :
    (evaluate "weather" "uid-2").violations
      = [ViolationType.off_topic, ViolationType.off_topic]
    ∧ ¬ (evaluate "weather" "uid-2").violations.Nodup := by
  constructor
  · decide
  · decide

/-- Claim C4, amended: the violations list of the verdict is the ordered list
of violation types encountered during the call — the pre-seeded off-topic
entry (when relevance < 0.3) followed by the violation type of each triggered
catalog rule in catalog order — and may contain duplicates (the claimed
de-duplication does not happen). -/
theorem claim_c4_violations_accumulation (message uid : String) :
    (evaluate message uid).violations
      = (if academicRelevance (msgLower message) < 3 / 10
         then [ViolationType.off_topic] else [])
        ++ (guardrailRules.filter
              (fun r => (checkRule (msgLower message) r).1)).map
            (fun r => r.violation_type) := by
  rw [evaluate_eq]
  simp only []
  rw [traceState, runRules_violations, initState_violations]

/-- Claim C2: within a single `evaluate` call, the resolved severity and
action never decrease as catalog rules are processed in order; once a rule of
severity high/critical has been adopted, no later same-or-lower-class rule
changes the resolved severity or action (the state freezes); and within a
not-yet-escalated severity class the first qualifying rule in catalog order
determines them: a triggering high/critical rule over a low/medium state
installs its severity and action for the rest of the call, and a triggering
medium rule over a low state installs medium and its action.  The first
conjunct ties the trace state to the verdict `evaluate` returns. -/
theorem claim_c2_monotonic_escalation (message uid : String) :
    ((evaluate message uid).severity
        = (traceState message guardrailRules).max_severity
      ∧ (evaluate message uid).action
        = (traceState message guardrailRules).final_action)
    ∧ (∀ pre mid post, guardrailRules = pre ++ mid ++ post →
        Severity.rank (traceState message pre).max_severity
          ≤ Severity.rank (traceState message (pre ++ mid)).max_severity
        ∧ Action.rank (traceState message pre).final_action
          ≤ Action.rank (traceState message (pre ++ mid)).final_action)
    ∧ (∀ pre post, guardrailRules = pre ++ post →
        ((traceState message pre).max_severity = Severity.high
          ∨ (traceState message pre).max_severity = Severity.critical) →
        (traceState message guardrailRules).max_severity
            = (traceState message pre).max_severity
        ∧ (traceState message guardrailRules).final_action
            = (traceState message pre).final_action)
    ∧ (∀ pre r post, guardrailRules = pre ++ r :: post →
        ((traceState message pre).max_severity = Severity.low
          ∨ (traceState message pre).max_severity = Severity.medium) →
        (checkRule (msgLower message) r).1 = true →
        (((r.severity = Severity.high ∨ r.severity = Severity.critical) →
            (traceState message guardrailRules).max_severity = r.severity
            ∧ (traceState message guardrailRules).final_action = r.action)
         ∧ (r.severity = Severity.medium →
            (traceState message pre).max_severity = Severity.low →
            (traceState message (pre ++ [r])).max_severity = Severity.medium
            ∧ (traceState message (pre ++ [r])).final_action = r.action))) := by
  refine ⟨⟨rfl, rfl⟩, ?_, ?_, ?_⟩
  · intro pre mid post hsplit
    have hsub : ∀ r ∈ pre ++ mid, r ∈ guardrailRules := by
      intro r hr
      rw [hsplit]
      exact List.mem_append.mpr (Or.inl hr)
    have hpre : ∀ r ∈ pre, r ∈ guardrailRules := by
      intro r hr
      exact hsub r (List.mem_append.mpr (Or.inl hr))
    have happ : traceState message (pre ++ mid)
        = runRules (msgLower message) (traceState message pre) mid := by
      rw [traceState, traceState, runRules_append]
    have hsev : Severity.rank (traceState message pre).max_severity
        ≤ Severity.rank (traceState message (pre ++ mid)).max_severity := by
      rw [happ]
      exact runRules_sev_mono _ mid _
    refine ⟨hsev, ?_⟩
    have hinv1 : (traceState message pre).final_action
        = canonAct (traceState message pre).max_severity :=
      runRules_inv _ pre hpre (initState_inv _)
    have hinv2 : (traceState message (pre ++ mid)).final_action
        = canonAct (traceState message (pre ++ mid)).max_severity :=
      runRules_inv _ (pre ++ mid) hsub (initState_inv _)
    rw [hinv1, hinv2]
    exact canonAct_rank_mono hsev
  · intro pre post hsplit hhc
    rw [hsplit, traceState, runRules_append]
    exact runRules_frozen _ post hhc
  · intro pre r post hsplit hlm htrig
    have hstep : traceState message (pre ++ [r])
        = stepRule (msgLower message) (traceState message pre) r := by
      rw [traceState, traceState, runRules_append]
      rfl
    constructor
    · intro hr
      have hadopt := stepRule_adopt (msgLower message) r hlm htrig hr
      rw [traceState] at hadopt
      have hfroze := runRules_frozen (msgLower message) post
        (s := stepRule (msgLower message)
          (runRules (msgLower message) (initState (msgLower message)) pre) r)
        (by rw [hadopt.1]; exact hr)
      rw [hsplit, traceState, runRules_append, runRules_cons]
      exact ⟨by rw [hfroze.1, hadopt.1], by rw [hfroze.2, hadopt.2]⟩
    · intro hmed hlow
      rw [hstep]
      exact stepRule_adopt_medium (msgLower message) r hlow htrig hmed

/-- Witness for C2, applying the monotonicity part, the freeze part and the
first-qualifying-rule part at concrete catalog splits on a concrete message. -/
theorem claim_c2_monotonic_escalation_witness :
    (Severity.rank (traceState "What is my password for the student portal?"
          []).max_severity
        ≤ Severity.rank (traceState "What is my password for the student portal?"
          ([] ++ [nonAcademicRule, personalInfoRule])).max_severity
      ∧ Action.rank (traceState "What is my password for the student portal?"
          []).final_action
        ≤ Action.rank (traceState "What is my password for the student portal?"
          ([] ++ [nonAcademicRule, personalInfoRule])).final_action)
    ∧ ((traceState "What is my password for the student portal?"
          guardrailRules).max_severity
        = (traceState "What is my password for the student portal?"
            [nonAcademicRule, personalInfoRule]).max_severity
      ∧ (traceState "What is my password for the student portal?"
          guardrailRules).final_action
        = (traceState "What is my password for the student portal?"
            [nonAcademicRule, personalInfoRule]).final_action)
    ∧ ((traceState "What is my password for the student portal?"
          guardrailRules).max_severity = personalInfoRule.severity
      ∧ (traceState "What is my password for the student portal?"
          guardrailRules).final_action = personalInfoRule.action) :=
  ⟨(claim_c2_monotonic_escalation "What is my password for the student portal?"
      "uid-5").2.1 [] [nonAcademicRule, personalInfoRule]
      [inappropriateRule, externalServicesRule, academicIntegrityRule] rfl,
   (claim_c2_monotonic_escalation "What is my password for the student portal?"
      "uid-5").2.2.1 [nonAcademicRule, personalInfoRule]
      [inappropriateRule, externalServicesRule, academicIntegrityRule] rfl
      (by decide),
   ((claim_c2_monotonic_escalation "What is my password for the student portal?"
      "uid-5").2.2.2 [nonAcademicRule] personalInfoRule
      [inappropriateRule, externalServicesRule, academicIntegrityRule] rfl
      (by decide) (by decide)).1 (by decide)⟩

/-- Claim C3 counterexample: on "I hate my password" both the high-severity
personal-info rule and the critical-severity inappropriate-content rule
trigger; the earlier (high) rule wins, so the
severity of the critical triggering rule is NOT the resolved severity — refuting the claim that the resolved
severity equals the severity of ANY triggering high/critical rule. -/
theorem claim_c3_counterexample :
    inappropriateRule ∈ guardrailRules
    ∧ inappropriateRule.severity = Severity.critical
    ∧ (checkRule (msgLower "I hate my password") inappropriateRule).1 = true
    ∧ "inappropriate_content"
        ∈ (evaluate "I hate my password" "uid-3").triggered_rules
    ∧ (evaluate "I hate my password" "uid-3").severity
        ≠ inappropriateRule.severity := by
  refine ⟨by decide, by decide, by decide, by decide, by decide⟩

/-- Claim C3, amended: if any high- or critical-severity catalog rule triggers
during `evaluate`, the resolved severity equals the severity of the FIRST such
triggering rule in catalog order; lower-severity rules firing in the same call
never affect it (but a later high/critical rule does not either). -/
theorem claim_c3_first_high_critical_sets_severity (message uid : String)
    (pre : List GuardrailRule) (r : GuardrailRule) (post : List GuardrailRule)
    (hsplit : guardrailRules = pre ++ r :: post)
    (hpre : ∀ r2 ∈ pre, ¬((checkRule (msgLower message) r2).1 = true
              ∧ (r2.severity = Severity.high ∨ r2.severity = Severity.critical)))
    (htrig : (checkRule (msgLower message) r).1 = true)
    (hr : r.severity = Severity.high ∨ r.severity = Severity.critical) :
    (evaluate message uid).severity = r.severity := by
  have hlm : (traceState message pre).max_severity = Severity.low
      ∨ (traceState message pre).max_severity = Severity.medium :=
    runRules_lowmed (msgLower message) pre (initState_lowmed (msgLower message)) hpre
  have hadopt := stepRule_adopt (msgLower message) r hlm htrig hr
  rw [traceState] at hadopt
  have hfroze := runRules_frozen (msgLower message) post
    (s := stepRule (msgLower message)
      (runRules (msgLower message) (initState (msgLower message)) pre) r)
    (by rw [hadopt.1]; exact hr)
  rw [evaluate_eq]
  simp only []
  rw [hsplit, traceState, runRules_append, runRules_cons, hfroze.1, hadopt.1]

/-- Witness for the amended C3 theorem: on the password message the first
triggering high/critical rule is the personal-info rule (after the
non-triggering medium rule), and the resolved severity is its severity. -/
theorem claim_c3_first_high_critical_sets_severity_witness :
    (∀ r2 ∈ [nonAcademicRule],
        ¬((checkRule (msgLower "What is my password for the student portal?") r2).1 = true
          ∧ (r2.severity = Severity.high ∨ r2.severity = Severity.critical)))
    ∧ (checkRule (msgLower "What is my password for the student portal?")
        personalInfoRule).1 = true
    ∧ (personalInfoRule.severity = Severity.high
        ∨ personalInfoRule.severity = Severity.critical)
    ∧ (evaluate "What is my password for the student portal?" "uid-6").severity
        = personalInfoRule.severity :=
  ⟨by decide, by decide, by decide,
   claim_c3_first_high_critical_sets_severity
     "What is my password for the student portal?" "uid-6"
     [nonAcademicRule] personalInfoRule
     [inappropriateRule, externalServicesRule, academicIntegrityRule]
     rfl (by decide) (by decide) (by decide)⟩

/-- Claim C6 counterexample: on "What is my password for the student portal?"
TWO of the four personal-info patterns match (the bounded word list via
"password" and the `what.*(password|pin|address|phone)` pattern), so the
per-rule confidence is 1/2, not the claimed 0.25 from exactly one match. -/
theorem claim_c6_counterexample :
    countPatternMatches (msgLower "What is my password for the student portal?")
        personalInfoRule.patterns = 2
    ∧ (checkRule (msgLower "What is my password for the student portal?")
        personalInfoRule).2 ≠ 1 / 4 := by
  constructor
  · decide
  · rw [show ((1 : ℚ) / 4) = mkRat 1 4 from by rw [mkRat_cast_div]; norm_num]
    decide

/-- Claim C6, amended: for any user id, on "What is my password for the
student portal?" the personal-info rule fires with per-rule confidence 0.5
(exactly 2 of its 4 patterns match, so both trigger clauses hold), and the
verdict has severity high, action block, is_allowed false, and message equal
character-for-character to the redirect text of that rule. -/
theorem claim_c6_password_message_verdict (uid : String) :
    countPatternMatches (msgLower "What is my password for the student portal?")
        personalInfoRule.patterns = 2
    ∧ (checkRule (msgLower "What is my password for the student portal?")
        personalInfoRule).1 = true
    ∧ (checkRule (msgLower "What is my password for the student portal?")
        personalInfoRule).2 = 1 / 2
    ∧ (evaluate "What is my password for the student portal?" uid).severity
        = Severity.high
    ∧ (evaluate "What is my password for the student portal?" uid).action
        = Action.block
    ∧ (evaluate "What is my password for the student portal?" uid).is_allowed
        = false
    ∧ some (evaluate "What is my password for the student portal?" uid).message
        = personalInfoRule.redirect_message := by
  refine ⟨by decide, by decide, ?_, rfl, rfl, rfl, rfl⟩
  rw [show ((1 : ℚ) / 2) = mkRat 1 2 from by rw [mkRat_cast_div]; norm_num]
  decide

end UwsGuardrails
